import Mathlib

/-!
Verification development for the `uproot-labs` lab-1 orchestration core
(`labs/lab1/pkg/{rollback,switch,routers,firewalls}.py`).

Python source functions are shallowly embedded as Lean definitions:
exceptions become `Except PyErr`, environment lookups become `Option String`
arguments, randomness becomes explicit draw streams `Nat → Nat` / coin streams
`Nat → Bool`, and wall-clock time becomes an explicit natural-number clock that
advances by the sleep interval on each loop iteration.
-/

set_option maxRecDepth 4000
set_option linter.unusedVariables false

namespace Uproot

/-- Python exception kinds raised (or, for `noSafeFaultError`, merely named by
the design documentation) in the modelled code.  `noSafeFaultError` has no
raising site in the implementation; it is included so that statements can
compare what the code raises against that documented error kind. -/
inductive PyErr where
  | runtimeError
  | fileNotFoundError
  | calledProcessError
  | timeoutError
  | connectionError
  | noSafeFaultError
  deriving DecidableEq, Repr

/-! ## Environment-variable handling

`firewalls._env` and `rollback._env` are the same function: strip whitespace,
then treat `""` and case-insensitive `"none"`/`"null"` as absent.
`routers.env_optional` additionally treats `"nil"` as absent.
`switch.run_switch` reads `SWITCH1_USERNAME`/`SWITCH1_PASSWORD` with a raw
`os.getenv` and only applies Python truthiness (`if username:`) at use. -/

/-- Python `str.upper()` (ASCII model, character-by-character). -/
def pyUpper (s : String) : String := ⟨s.data.map Char.toUpper⟩

/-- Python `str.lower()` (ASCII model, character-by-character). -/
def pyLower (s : String) : String := ⟨s.data.map Char.toLower⟩

/-- Python `str.strip()`: drop leading and trailing whitespace. -/
def pyStrip (s : String) : String :=
  ⟨((s.data.dropWhile Char.isWhitespace).reverse.dropWhile Char.isWhitespace).reverse⟩

/-- `_env` from `firewalls.py` / `rollback.py` applied to the raw
`os.getenv` result. -/
def envOpt (v : Option String) : Option String :=
  match v with
  | none => none
  | some s =>
    let s := pyStrip s
    if s = "" ∨ pyLower s = "none" ∨ pyLower s = "null" then none else some s

/-- `env_optional` from `routers.py` applied to the raw `os.getenv` result. -/
def envOptionalRouter (v : Option String) : Option String :=
  match v with
  | none => none
  | some s =>
    let s := pyStrip s
    if s = "" ∨ pyLower s = "none" ∨ pyLower s = "null" ∨ pyLower s = "nil"
    then none else some s

/-- Credential handling in `switch.run_switch`: the raw `os.getenv` value is
used whenever it is truthy (non-empty); no stripping, no sentinel filtering. -/
def switchCred (v : Option String) : Option String :=
  match v with
  | none => none
  | some s => if s = "" then none else some s

/-- Spec-side comparator (from the spec's words, for refinement): a value is
absent when it is empty, whitespace-only, or a case-insensitive
`"none"`/`"null"` sentinel. -/
def absentPerSpec (s : String) : Bool :=
  pyStrip s = "" || pyLower (pyStrip s) = "none" || pyLower (pyStrip s) = "null"

/-! ## Reachability waits (`rollback._wait_tcp_up` / `_wait_tcp_down`)

The probe is instantaneous; the clock starts at `start` and advances by
`interval` on each `time.sleep(interval_s)`.  The loop body
`while time.time() < end: if probe(): return True; sleep(interval)` is
embedded with a fuel argument; fuel `timeout + 1` is sufficient whenever
`1 ≤ interval` because each iteration advances the clock by `interval ≥ 1`
and the loop exits once the clock reaches `endT`. -/

def waitLoop (probe : Nat → Bool) (interval : Nat) :
    Nat → Nat → Nat → Nat × Bool
  | 0, now, _ => (now, false)
  | fuel + 1, now, endT =>
    if now < endT then
      if probe now then (now, true)
      else waitLoop probe interval fuel (now + interval) endT
    else (now, false)

/-- `_wait_tcp_up(host, port, timeout_s, interval_s)` started at clock time
`start`; returns the clock time at which the call returns together with the
success flag. -/
def waitTcpUp (probe : Nat → Bool) (start timeout interval : Nat) : Nat × Bool :=
  waitLoop probe interval (timeout + 1) start (start + timeout)

/-- `_wait_tcp_down`: same loop with the probe's sense inverted
(`if not _tcp_open(...)`). -/
def waitTcpDown (probe : Nat → Bool) (start timeout interval : Nat) : Nat × Bool :=
  waitLoop (fun t => !probe t) interval (timeout + 1) start (start + timeout)

/-! ## pfSense restore (`rollback._restore_pfsense`) -/

/-- One firewall's environment for a restore attempt: whether the baseline
file exists, whether the `scp` transfer succeeds, the `kern.boottime` tokens
read before and after the reboot (`""` when the read yields nothing), whether
the ssh port was observed to drop, and whether ssh returned within the wait. -/
structure RestoreInput where
  baselineExists : Bool
  scpOk          : Bool
  bootBefore     : String
  droppedOk      : Bool
  upOk           : Bool
  bootAfter      : String
  deriving DecidableEq, Repr

/-- Normal-return outcomes of `_restore_pfsense` (the function logs and
returns in all three cases; only the last is the success log line). -/
inductive RestoreStatus where
  | sshNotReturned
  | bootUnchanged
  | success
  deriving DecidableEq, Repr

/-- `_restore_pfsense`:
missing baseline raises `FileNotFoundError`; a rejected `scp` raises
`CalledProcessError` (`check=True`); the reboot command never raises
(`check=False`); a failure to observe the ssh drop is only a warning;
ssh not returning is a logged error return; equal non-empty boot tokens are a
logged error return; otherwise the restore is logged successful. -/
def restorePfsense (i : RestoreInput) : Except PyErr RestoreStatus :=
  if ¬ i.baselineExists then .error .fileNotFoundError
  else if ¬ i.scpOk then .error .calledProcessError
  else if ¬ i.upOk then .ok .sshNotReturned
  else if i.bootBefore ≠ "" ∧ i.bootAfter ≠ "" ∧ i.bootBefore = i.bootAfter then
    .ok .bootUnchanged
  else .ok .success

/-! ## Whole-topology rollback (`rollback.rollback_all`)

`rollback_all` calls, in program order and with no exception handling:
`rollback_firewalls()`, `rollback_cisco_switch()`,
`_wait_for_ens4_gateway(...)`, `rollback_cisco_routers()`.
We record which device restores / waits were actually entered and the first
uncaught exception (which ends the run). -/

/-- The stages `rollback_all` can enter, in the program's fixed order.
A stage is recorded when its device restore (or, for `gatewayWait`, the
gateway reachability wait) is actually invoked. -/
inductive Stage where
  | branchFw
  | appFw
  | switchRestore
  | gatewayWait
  | router1
  | router2
  deriving DecidableEq, Repr

/-- Environment and device behaviour for a whole-topology rollback run.
`*Env` flags say the required environment variables are present (after
`_env` filtering); `switchOk`/`r1Ok`/`r2Ok` say the telnet
`configure replace` session completes without a transport/auth exception;
`gatewayOk` says the ens4 gateway ping succeeds within its deadline;
`r1WaitOk`/`r2WaitOk` say the pre-restore telnet reachability wait succeeds. -/
structure World where
  branchEnv : Bool
  appEnv    : Bool
  branch    : RestoreInput
  app       : RestoreInput
  switchEnv : Bool
  switchOk  : Bool
  gatewayOk : Bool
  r1Env     : Bool
  r1WaitOk  : Bool
  r1Ok      : Bool
  r2Env     : Bool
  r2WaitOk  : Bool
  r2Ok      : Bool
  deriving DecidableEq, Repr

/-- `rollback_firewalls`: raises `RuntimeError` when a firewall's address or
password is missing, then restores BRANCH_FW and, if that call returned
normally, APP_FW. -/
def rollbackFirewalls (w : World) : List Stage × Option PyErr :=
  if ¬ w.branchEnv ∨ ¬ w.appEnv then ([], some .runtimeError)
  else
    match restorePfsense w.branch with
    | .error e => ([.branchFw], some e)
    | .ok _ =>
      match restorePfsense w.app with
      | .error e => ([.branchFw, .appFw], some e)
      | .ok _ => ([.branchFw, .appFw], none)

/-- `rollback_cisco_switch`: silently skipped when `SWITCH1_MGMT_IP` is
unset; a failing telnet restore raises. -/
def rollbackSwitch (w : World) : List Stage × Option PyErr :=
  if ¬ w.switchEnv then ([], none)
  else if w.switchOk then ([.switchRestore], none)
  else ([.switchRestore], some .connectionError)

/-- `rollback_cisco_routers`: per router, skipped when its address is unset;
the pre-restore `_wait_for_tcp` raises `TimeoutError` on deadline; a failing
telnet restore raises. -/
def rollbackRouters (w : World) : List Stage × Option PyErr :=
  let r1 : List Stage × Option PyErr :=
    if ¬ w.r1Env then ([], none)
    else if ¬ w.r1WaitOk then ([], some .timeoutError)
    else if w.r1Ok then ([.router1], none)
    else ([.router1], some .connectionError)
  match r1 with
  | (t1, some e) => (t1, some e)
  | (t1, none) =>
    if ¬ w.r2Env then (t1, none)
    else if ¬ w.r2WaitOk then (t1, some .timeoutError)
    else if w.r2Ok then (t1 ++ [.router2], none)
    else (t1 ++ [.router2], some .connectionError)

/-- `rollback_all`: firewalls, then switch, then the ens4 gateway wait
(`TimeoutError` on deadline), then routers; an uncaught exception from any
stage ends the run immediately. -/
def rollbackAll (w : World) : List Stage × Option PyErr :=
  match rollbackFirewalls w with
  | (t1, some e) => (t1, some e)
  | (t1, none) =>
    match rollbackSwitch w with
    | (t2, some e) => (t1 ++ t2, some e)
    | (t2, none) =>
      if ¬ w.gatewayOk then (t1 ++ t2 ++ [.gatewayWait], some .timeoutError)
      else
        match rollbackRouters w with
        | (t3, e) => (t1 ++ t2 ++ [.gatewayWait] ++ t3, e)

/-- The fixed dependency order of `rollback_all`'s stages. -/
def fullOrder : List Stage :=
  [.branchFw, .appFw, .switchRestore, .gatewayWait, .router1, .router2]

/-! ## Switch fault run (`switch.py`)

Constants from the source: `MGMT_VLAN = 1`, `VLAN_MIN = 2`, `VLAN_MAX = 4094`,
`MAX_PORTS = 4`, `TRUNK_ALLOWED_MIN = 3`, `TRUNK_ALLOWED_MAX = 12`,
`SET_NATIVE_VLAN_ON_TRUNK = True`, `APPLY_CHANGES = True`, `WRITE_MEM = False`.
`random.randint(a, b)` is modelled as `a + g k % (b - a + 1)` over a draw
stream `g`, consuming one draw; `random.random() < TRUNK_PROB` is a coin
stream. -/

/-- One row of the parsed `show interfaces status` table (only the fields the
code reads). -/
structure SwIface where
  port   : String
  status : String
  deriving DecidableEq, Repr

/-- The eligibility filter of `run_switch`: rows whose `status` is
`"connected"` and whose `port` is not in `EXCLUDE_PORTS`. -/
def connectedEligible (interfaces : List SwIface) (excluded : List String) :
    List SwIface :=
  interfaces.filter (fun i => i.status == "connected" && !(excluded.contains i.port))

/-- Insert into an ascending list (helper for modelling Python `sorted`). -/
def insertAsc (v : Nat) : List Nat → List Nat
  | [] => [v]
  | x :: xs => if v ≤ x then v :: x :: xs else x :: insertAsc v xs

/-- Python `sorted` on a collection of naturals (membership-preserving
ascending sort). -/
def sortAsc (l : List Nat) : List Nat := l.foldr insertAsc []

/-- `random.randint(a, b)` (inclusive bounds) at draw index `k` of stream `g`. -/
def randInt (g : Nat → Nat) (k a b : Nat) : Nat := a + g k % (b - a + 1)

/-- The bounded retry loop of `_rand_vlan`: up to `t` draws of
`randint(VLAN_MIN, VLAN_MAX)`, returning the first draw outside `exclude`
(with the next draw index), else `none` after consuming all `t` draws. -/
def randVlanTry (g : Nat → Nat) (exclude : List Nat) :
    Nat → Nat → Option Nat × Nat
  | 0, k => (none, k)
  | t + 1, k =>
    let v := randInt g k 2 4094
    if exclude.contains v then randVlanTry g exclude t (k + 1)
    else (some v, k + 1)

/-- The deterministic fallback scan of `_rand_vlan`:
`for v in range(start, start + len): if v not in exclude: return v`. -/
def scanVlan (exclude : List Nat) : Nat → Nat → Option Nat
  | _, 0 => none
  | v, n + 1 => if exclude.contains v then scanVlan exclude (v + 1) n else some v

/-- `_rand_vlan(exclude)`: 50 random tries in `[VLAN_MIN, VLAN_MAX]`, then a
deterministic scan of `range(VLAN_MIN, VLAN_MAX + 1)`, else `RuntimeError`.
Returns the VLAN id together with the next draw index. -/
def randVlan (g : Nat → Nat) (k : Nat) (exclude : List Nat) :
    Except PyErr (Nat × Nat) :=
  match randVlanTry g exclude 50 k with
  | (some v, k') => .ok (v, k')
  | (none, k') =>
    match scanVlan exclude 2 4093 with
    | some v => .ok (v, k')
    | none => .error .runtimeError

/-- The `while len(vlans) < count` loop of `_rand_vlan_list`: each iteration
draws one VLAN excluded from `exclude ∪ vlans`, so the set grows by exactly
one element per iteration; `needed` counts the remaining iterations. -/
def randVlanListGo (g : Nat → Nat) (exclude : List Nat) :
    Nat → Nat → List Nat → Except PyErr (List Nat × Nat)
  | 0, k, acc => .ok (acc, k)
  | n + 1, k, acc =>
    match randVlan g k (exclude ++ acc) with
    | .error e => .error e
    | .ok (v, k') => randVlanListGo g exclude n k' (acc ++ [v])

/-- `_rand_vlan_list(count, exclude)`: collect `count` fresh VLAN ids and
return them sorted ascending. -/
def randVlanList (g : Nat → Nat) (k count : Nat) (exclude : List Nat) :
    Except PyErr (List Nat × Nat) :=
  match randVlanListGo g exclude count k [] with
  | .error e => .error e
  | .ok (acc, k') => .ok (sortAsc acc, k')

/-- One element of `run_switch`'s `plan` list
(`(port, mode, access_vlan, allowed, native)`). -/
structure PlanEntry where
  port       : String
  mode       : String
  accessVlan : Option Nat
  allowed    : Option (List Nat)
  native     : Option Nat
  deriving DecidableEq, Repr

/-- The plan-building loop of `run_switch` (lines 179-188): for each target
port, flip the trunk coin; a trunk draws `randint(3, 12)` allowed VLANs from
`_rand_vlan_list` (excluding the management VLAN 1) and a native VLAN
excluded from `{1} ∪ allowed`; an access port draws one access VLAN excluded
from `{1}`.  `k` and `c` are the draw/coin stream positions. -/
def buildPlan (g : Nat → Nat) (coin : Nat → Bool) :
    List SwIface → Nat → Nat → Except PyErr (List PlanEntry × Nat × Nat)
  | [], k, c => .ok ([], k, c)
  | iface :: rest, k, c =>
    if coin c then
      let cnt := randInt g k 3 12
      match randVlanList g (k + 1) cnt [1] with
      | .error e => .error e
      | .ok (allowed, k1) =>
        match randVlan g k1 ([1] ++ allowed) with
        | .error e => .error e
        | .ok (native, k2) =>
          match buildPlan g coin rest k2 (c + 1) with
          | .error e => .error e
          | .ok (plan, kc) =>
            .ok (⟨iface.port, "trunk", none, some allowed, some native⟩ :: plan, kc)
    else
      match randVlan g k [1] with
      | .error e => .error e
      | .ok (v, k1) =>
        match buildPlan g coin rest k1 (c + 1) with
        | .error e => .error e
        | .ok (plan, kc) =>
          .ok (⟨iface.port, "access", some v, none, none⟩ :: plan, kc)

/-- `_vlan_list_to_ios`. -/
def iosList (l : List Nat) : String :=
  String.intercalate "," (l.map (fun v => toString v))

/-- The per-port configuration batch of `run_switch` (lines 216-237). -/
def portCmds (e : PlanEntry) : List String :=
  ("interface " ++ e.port) ::
  (if e.mode == "access" then
    ["switchport", "switchport mode access",
     "switchport access vlan " ++ toString (e.accessVlan.getD 0),
     "no shutdown"]
  else
    ["switchport", "switchport mode trunk",
     "switchport trunk allowed vlan " ++ iosList (e.allowed.getD []),
     "no shutdown"] ++
    (match e.native with
     | some n => ["switchport trunk native vlan " ++ toString n]
     | none => []))

/-- The `vlans_to_create` set of `run_switch` (lines 205-214), with Python
truthiness on `access_vlan`, `allowed` and `native`, returned as a sorted
deduplicated list. -/
def vlansToCreate (plan : List PlanEntry) : List Nat :=
  sortAsc (plan.foldl (fun acc e =>
    acc ++
    (match e.accessVlan with
     | some v => if e.mode == "access" ∧ v ≠ 0 then [v] else []
     | none => []) ++
    (match e.allowed with
     | some l => if e.mode == "trunk" ∧ l ≠ [] then l else []
     | none => []) ++
    (match e.native with
     | some n => if e.mode == "trunk" ∧ n ≠ 0 then [n] else []
     | none => [])) []).dedup

/-- `_maybe_create_vlans`: one `vlan v` / `exit` pair per id. -/
def vlanCmds (plan : List PlanEntry) : List String :=
  (vlansToCreate plan).foldr (fun v acc => ("vlan " ++ toString v) :: "exit" :: acc) []

/-- Inputs to a `run_switch` invocation: the `SWITCH1_MGMT_IP` value, whether
the telnet connect/privilege escalation succeeds, the auto-detected host
switchport (`None` when detection fails or finds nothing — the exception is
caught and only logged), the parsed interface table, the `random.shuffle`
permutation, and the randomness streams. -/
structure SwitchWorld where
  host         : Option String
  connectOk    : Bool
  detectedPort : Option String
  interfaces   : List SwIface
  shuffle      : List SwIface → List SwIface
  g            : Nat → Nat
  coin         : Nat → Bool

/-- The `EXCLUDE_PORTS` set at filtering time: empty at module load, plus the
auto-detected host port when found. -/
def exclOf (w : SwitchWorld) : List String :=
  match w.detectedPort with
  | some p => [p]
  | none => []

/-- How a normally-returning `run_switch` ended. -/
inductive SwitchNote where
  | noEligible
  | applied
  deriving DecidableEq, Repr

/-- Result of a normally-returning `run_switch`: the `send_config_set`
batches actually issued to the device, and how the run ended. -/
structure SwitchRun where
  batches : List (List String)
  note    : SwitchNote
  deriving DecidableEq, Repr

/-- `run_switch`: missing `SWITCH1_MGMT_IP` raises `RuntimeError`; a failed
connect raises; an empty parsed interface table raises `RuntimeError`; an
empty eligible pool logs a warning and returns with no commands issued;
otherwise the first `MAX_PORTS = 4` shuffled eligible ports are planned and
configured (`APPLY_CHANGES = True`, `WRITE_MEM = False`). -/
def runSwitch (w : SwitchWorld) : Except PyErr SwitchRun :=
  match w.host with
  | none => .error .runtimeError
  | some _ =>
    if ¬ w.connectOk then .error .connectionError
    else if w.interfaces = [] then .error .runtimeError
    else
      match connectedEligible w.interfaces (exclOf w) with
      | [] => .ok ⟨[], .noEligible⟩
      | c :: cs =>
        let targets := (w.shuffle (c :: cs)).take 4
        match buildPlan w.g w.coin targets 0 0 with
        | .error e => .error e
        | .ok (plan, _, _) =>
          let vcmds := vlanCmds plan
          .ok ⟨(if vcmds = [] then [] else [vcmds]) ++ plan.map portCmds, .applied⟩

/-! ## REST API prefix detection (`firewalls._detect_api_prefix`) -/

/-- The probe loop of `_detect_api_prefix`.  `probeOk p` is true when
`cli.get(p + "/firewall/rules")` does not raise (the `except` clause catches
every exception kind).  The loop takes the prefixes in written order and
returns the first accepted one. -/
def detectApiBase (probeOk : String → Bool) : Except PyErr String :=
  match ["/api/v2", "/api/v1"].find? probeOk with
  | some p => .ok p
  | none => .error .runtimeError

/-! ## Default-gateway selection (`firewalls.fault_disable_default_gateway`)

The selection runs three passes over the gateway list, each a `for` loop with
`break` at the first match:
pass 1: `str(g.get("name", "")).upper() == "WANGW"`;
pass 2: `g.get("default") is True or g.get("is_default") is True or
g.get("defaultgw") is True`;
pass 3: skip entries whose `disabled` value stringifies (lower-cased) to
`"true"`/`"yes"` or is `True`/`1`, take the first remaining. -/

/-- A dynamically-typed JSON-ish value as the pfSense API returns it for the
`disabled` key. -/
inductive PyVal where
  | vnone
  | vbool (b : Bool)
  | vint (n : Int)
  | vstr (s : String)
  deriving DecidableEq, Repr

/-- Python `str()` on a `PyVal`. -/
def pyStr : PyVal → String
  | .vnone => "None"
  | .vbool true => "True"
  | .vbool false => "False"
  | .vint n => toString n
  | .vstr s => s

/-- One gateway entry (the fields the selection logic reads; `Option` is a
missing key). -/
structure Gateway where
  name      : Option String
  default   : Option PyVal
  isDefault : Option PyVal
  defaultgw : Option PyVal
  disabled  : Option PyVal
  deriving DecidableEq, Repr

/-- Pass-1 predicate: the `name` value upper-cases to the canonical `WANGW`. -/
def gwNameMatch (g : Gateway) : Bool :=
  pyUpper (g.name.getD "") == "WANGW"

/-- Pass-2 predicate: one of the three default flags is literally `True`. -/
def gwDefaultFlag (g : Gateway) : Bool :=
  g.default == some (.vbool true) || g.isDefault == some (.vbool true)
    || g.defaultgw == some (.vbool true)

/-- Pass-3 skip predicate: the entry counts as disabled. -/
def gwDisabled (g : Gateway) : Bool :=
  (let s := pyLower (pyStr (g.disabled.getD (.vstr "")))
   s == "true" || s == "yes")
  || g.disabled == some (.vbool true) || g.disabled == some (.vint 1)

/-- A `for`-loop with `break` at the first entry satisfying `p` (the shape
of each of the three selection passes). -/
def firstHit (p : Gateway → Bool) : List Gateway → Option Gateway
  | [] => none
  | g :: rest => if p g then some g else firstHit p rest

/-- First pass over the gateway list (canonical-name match). -/
def findPass1 (gws : List Gateway) : Option Gateway := firstHit gwNameMatch gws

/-- Second pass (explicit default flag). -/
def findPass2 (gws : List Gateway) : Option Gateway := firstHit gwDefaultFlag gws

/-- Third pass (first non-disabled entry; the loop `continue`s past disabled
entries and `break`s at the first remaining one). -/
def findPass3 (gws : List Gateway) : Option Gateway :=
  firstHit (fun g => !gwDisabled g) gws

/-- The gateway-selection portion of `fault_disable_default_gateway`
(lines 161-182): each later pass runs only when every earlier pass found
nothing. -/
def selectDefaultGw (gws : List Gateway) : Option Gateway :=
  match findPass1 gws with
  | some g => some g
  | none =>
    match findPass2 gws with
    | some g => some g
    | none => findPass3 gws

/-! ## Router faults (`routers.faults_full` / `routers.faults_router2_safe`) -/

/-- The rendered fields of the `ipaddress.ip_network` value interpolated into
the black-hole route command. -/
structure Ipv4Net where
  networkAddr : String
  netmask     : String
  deriving DecidableEq, Repr

/-- `BOGUS_NHOP` from `routers.py`. -/
def bogusNhop : String := "203.0.113.1"

/-- A named fault: `(name, ordered command list)`. -/
abbrev RouterFault := String × List String

/-- The black-hole route command for the south connected subnet. -/
def blackholeCmd (n : Ipv4Net) : String :=
  "ip route " ++ n.networkAddr ++ " " ++ n.netmask ++ " Null0"

/-- `faults_full(north_if, south_if, south_net)`. -/
def faultsFull (north south : String) (snet : Option Ipv4Net) :
    List RouterFault :=
  [("remove_default_route", ["no ip route 0.0.0.0 0.0.0.0"]),
   ("wrong_default_next_hop_forced_interface",
    ["no ip route 0.0.0.0 0.0.0.0",
     "ip route 0.0.0.0 0.0.0.0 " ++ north ++ " " ++ bogusNhop]),
   ("default_out_wrong_interface_south",
    ["no ip route 0.0.0.0 0.0.0.0",
     "ip route 0.0.0.0 0.0.0.0 " ++ south ++ " " ++ bogusNhop]),
   ("shutdown_northbound", ["interface " ++ north, "shutdown"]),
   ("remove_northbound_ip", ["interface " ++ north, "no ip address"]),
   ("drop_all_outbound_on_northbound",
    ["ip access-list extended CHAOS_OUT", "deny ip any any", "exit",
     "interface " ++ north, "ip access-group CHAOS_OUT out"])] ++
  (match snet with
   | some n => [("blackhole_south_connected_subnet", [blackholeCmd n])]
   | none => [])

/-- `faults_router2_safe(north_if, south_if, south_net)` — the `r2_safe`
fault catalog used for SP-Router2. -/
def faultsRouter2Safe (north south : String) (snet : Option Ipv4Net) :
    List RouterFault :=
  [("shutdown_southbound", ["interface " ++ south, "shutdown"]),
   ("remove_southbound_ip", ["interface " ++ south, "no ip address"]),
   ("drop_all_outbound_on_southbound",
    ["ip access-list extended CHAOS_SB_OUT", "deny ip any any", "exit",
     "interface " ++ south, "ip access-group CHAOS_SB_OUT out"])] ++
  (match snet with
   | some n => [("blackhole_south_connected_subnet", [blackholeCmd n])]
   | none => [])

/-- The complete set of command strings a safe-mode fault may contain: each
either configures the south-bound interface or black-holes the south
connected subnet. -/
def safeCmdPool (south : String) (snet : Option Ipv4Net) : List String :=
  ["interface " ++ south, "shutdown", "no ip address",
   "ip access-list extended CHAOS_SB_OUT", "deny ip any any", "exit",
   "ip access-group CHAOS_SB_OUT out"] ++
  (match snet with
   | some n => [blackholeCmd n]
   | none => [])

/-! ## Theorems -/

/-- A restore whose baseline exists and whose transfer succeeds returns
normally (no exception), whatever the reachability and boot tokens say. -/
theorem restorePfsense_ok (i : RestoreInput)
    (hb : i.baselineExists = true) (hs : i.scpOk = true) :
    ∃ s, restorePfsense i = .ok s := by
  unfold restorePfsense
  rw [hb, hs]
  cases hu : i.upOk
  · exact ⟨.sshNotReturned, by simp⟩
  · by_cases hbc : i.bootBefore ≠ "" ∧ i.bootAfter ≠ "" ∧ i.bootBefore = i.bootAfter
    · exact ⟨.bootUnchanged, by simp [hbc]⟩
    · exact ⟨.success, by simp [hbc]⟩

/-- C1: during a firewall restore (baseline present, transfer accepted), the
outcome is `success` exactly when ssh reachability returned and the boot
token captured before the reboot is unknown (empty) or differs from the token
captured after; and for known, equal tokens with reachability true the
outcome is the `bootUnchanged` failure, never `success`. -/
theorem restore_success_iff_boot_identity_changed (i : RestoreInput)
    (hb : i.baselineExists = true) (hs : i.scpOk = true) :
    (restorePfsense i = .ok .success ↔
      i.upOk = true ∧ (i.bootBefore = "" ∨ i.bootBefore ≠ i.bootAfter)) ∧
    (i.upOk = true → i.bootBefore ≠ "" → i.bootBefore = i.bootAfter →
      restorePfsense i = .ok .bootUnchanged) := by
  unfold restorePfsense
  rw [hb, hs]
  cases hu : i.upOk
  · simp
  · by_cases hb0 : i.bootBefore = ""
    · simp [hb0]
    · by_cases ha0 : i.bootAfter = ""
      · simp [hb0, ha0]
      · by_cases hba : i.bootBefore = i.bootAfter
        · simp [hb0, ha0, hba]
        · simp [hb0, ha0, hba]

/-- Witness for the boot-identity theorem at a concrete restore input: a
changed boot token with reachability true yields `success`. -/
theorem restore_success_iff_boot_identity_changed_witness :
    restorePfsense ⟨true, true, "141234", true, true, "152000"⟩ =
      .ok .success :=
  (restore_success_iff_boot_identity_changed
      ⟨true, true, "141234", true, true, "152000"⟩ rfl rfl).1.mpr
    ⟨rfl, Or.inr (by decide)⟩

/-- Every `rollback_firewalls` trace respects the branch-then-app order. -/
theorem rollbackFirewalls_sublist (w : World) :
    (rollbackFirewalls w).1.Sublist [Stage.branchFw, Stage.appFw] := by
  unfold rollbackFirewalls
  split
  · simp
  · split
    · simp
    · split <;> exact List.Sublist.refl _

/-- Every `rollback_cisco_switch` trace is at most the switch stage. -/
theorem rollbackSwitch_sublist (w : World) :
    (rollbackSwitch w).1.Sublist [Stage.switchRestore] := by
  unfold rollbackSwitch
  split
  · simp
  · split <;> exact List.Sublist.refl _

/-- Every `rollback_cisco_routers` trace respects the router order. -/
theorem rollbackRouters_sublist (w : World) :
    (rollbackRouters w).1.Sublist [Stage.router1, Stage.router2] := by
  unfold rollbackRouters
  cases h1 : w.r1Env <;> cases h2 : w.r1WaitOk <;> cases h3 : w.r1Ok <;>
    cases h4 : w.r2Env <;> cases h5 : w.r2WaitOk <;> cases h6 : w.r2Ok <;>
      simp

/-- C2 (amended): the whole-topology rollback visits stages only in the
fixed order firewalls → switch → gateway wait → routers, and restore
*verification* failures (unreachable after reboot, unchanged boot token) are
isolated — with baselines present, transfers accepted and sessions healthy,
every stage is attempted in order regardless of any device's reachability or
boot-token outcome.  (Missing baselines and rejected transfers, by contrast,
raise and abort the remaining stages — see the counterexample theorem.) -/
theorem rollback_order_and_isolated_verification :
    (∀ w : World, (rollbackAll w).1.Sublist fullOrder) ∧
    (∀ w : World, w.branchEnv = true → w.appEnv = true →
      w.branch.baselineExists = true → w.branch.scpOk = true →
      w.app.baselineExists = true → w.app.scpOk = true →
      w.switchEnv = true → w.switchOk = true → w.gatewayOk = true →
      w.r1Env = true → w.r1WaitOk = true → w.r1Ok = true →
      w.r2Env = true → w.r2WaitOk = true → w.r2Ok = true →
      rollbackAll w = (fullOrder, none)) := by
  have horder : fullOrder =
      [Stage.branchFw, Stage.appFw] ++ [Stage.switchRestore] ++
        [Stage.gatewayWait] ++ [Stage.router1, Stage.router2] := rfl
  constructor
  · intro w
    rcases hfw : rollbackFirewalls w with ⟨t1, e1⟩
    rcases hsw : rollbackSwitch w with ⟨t2, e2⟩
    rcases hrt : rollbackRouters w with ⟨t3, e3⟩
    have s1 := rollbackFirewalls_sublist w
    rw [hfw] at s1
    have s2 := rollbackSwitch_sublist w
    rw [hsw] at s2
    have s3 := rollbackRouters_sublist w
    rw [hrt] at s3
    unfold rollbackAll
    rw [hfw, hsw, hrt]
    cases e1
    · cases e2
      · cases hg : w.gatewayOk
        · show (t1 ++ t2 ++ [Stage.gatewayWait]).Sublist fullOrder
          rw [horder]
          exact ((s1.append s2).append (List.Sublist.refl _)).trans
            (List.sublist_append_left _ _)
        · show (t1 ++ t2 ++ [Stage.gatewayWait] ++ t3).Sublist fullOrder
          rw [horder]
          exact ((s1.append s2).append (List.Sublist.refl _)).append s3
      · show (t1 ++ t2).Sublist fullOrder
        exact (s1.append s2).trans (by decide)
    · show t1.Sublist fullOrder
      exact s1.trans (by decide)
  · intro w h1 h2 h3 h4 h5 h6 h7 h8 h9 h10 h11 h12 h13 h14 h15
    obtain ⟨s1, hs1⟩ := restorePfsense_ok w.branch h3 h4
    obtain ⟨s2, hs2⟩ := restorePfsense_ok w.app h5 h6
    have hfw : rollbackFirewalls w = ([.branchFw, .appFw], none) := by
      unfold rollbackFirewalls
      rw [hs1, hs2]
      simp [h1, h2]
    have hsw : rollbackSwitch w = ([.switchRestore], none) := by
      unfold rollbackSwitch
      simp [h7, h8]
    have hrt : rollbackRouters w = ([.router1, .router2], none) := by
      unfold rollbackRouters
      simp [h10, h11, h12, h13, h14, h15]
    unfold rollbackAll
    rw [hfw, hsw, hrt]
    simp [h9, fullOrder]

/-- Witness for the rollback-order theorem at a concrete world in which both
firewalls come back reachable but with *unchanged* boot tokens (a
verification failure): every stage is still attempted in the fixed order. -/
theorem rollback_order_and_isolated_verification_witness :
    rollbackAll
      ⟨true, true, ⟨true, true, "141234", true, true, "141234"⟩,
        ⟨true, true, "141234", true, true, "141234"⟩,
        true, true, true, true, true, true, true, true, true⟩ =
      (fullOrder, none) :=
  rollback_order_and_isolated_verification.2 _ rfl rfl rfl rfl rfl rfl rfl rfl
    rfl rfl rfl rfl rfl rfl rfl

/-- C2 counterexample: with the BRANCH_FW baseline artifact missing, the
`FileNotFoundError` propagates out of `rollback_all`; the switch, gateway
and router stages are never attempted, refuting the claim that every
per-device failure still lets the remaining stages run. -/
theorem rollback_missing_baseline_aborts_run :
    rollbackAll
      ⟨true, true, ⟨false, true, "141234", true, true, "152000"⟩,
        ⟨true, true, "141234", true, true, "152000"⟩,
        true, true, true, true, true, true, true, true, true⟩ =
      ([Stage.branchFw], some PyErr.fileNotFoundError) ∧
    Stage.switchRestore ∉ [Stage.branchFw] := by
  decide

/-- C3: the eligible fault targets are exactly the connected interface rows
minus the excluded ports; consequently no fault target chosen from the
(shuffled, truncated) eligible pool is ever a member of the excluded set; and
on the scenario exclusion = {Gi0/1}, connected = {Gi0/1, Gi0/2, Gi0/3} the
eligible ports are exactly {Gi0/2, Gi0/3}. -/
theorem eligible_pool_connected_minus_excluded :
    (∀ (ifaces : List SwIface) (excl : List String) (i : SwIface),
      i ∈ connectedEligible ifaces excl ↔
        i ∈ ifaces ∧ i.status = "connected" ∧ i.port ∉ excl) ∧
    (∀ (ifaces : List SwIface) (excl : List String)
       (shuffle : List SwIface → List SwIface),
      (∀ l x, x ∈ shuffle l → x ∈ l) →
      ∀ t ∈ (shuffle (connectedEligible ifaces excl)).take 4, t.port ∉ excl) ∧
    (connectedEligible
        [⟨"Gi0/1", "connected"⟩, ⟨"Gi0/2", "connected"⟩, ⟨"Gi0/3", "connected"⟩]
        ["Gi0/1"]).map (fun i => i.port) = ["Gi0/2", "Gi0/3"] := by
  have hmem : ∀ (ifaces : List SwIface) (excl : List String) (i : SwIface),
      i ∈ connectedEligible ifaces excl ↔
        i ∈ ifaces ∧ i.status = "connected" ∧ i.port ∉ excl := by
    intro ifaces excl i
    unfold connectedEligible
    rw [List.mem_filter]
    simp
  refine ⟨hmem, ?_, by decide⟩
  intro ifaces excl shuffle hsh t ht
  have h1 : t ∈ shuffle (connectedEligible ifaces excl) :=
    List.mem_of_mem_take ht
  have h2 := hsh _ _ h1
  exact ((hmem ifaces excl t).mp h2).2.2

/-- Witness for the eligible-pool theorem: membership established through the
theorem's characterization at the scenario input. -/
theorem eligible_pool_connected_minus_excluded_witness :
    (⟨"Gi0/2", "connected"⟩ : SwIface) ∈
      connectedEligible
        [⟨"Gi0/1", "connected"⟩, ⟨"Gi0/2", "connected"⟩, ⟨"Gi0/3", "connected"⟩]
        ["Gi0/1"] :=
  (eligible_pool_connected_minus_excluded.1 _ _ _).mpr
    ⟨by decide, rfl, by decide⟩

/-- C4 (amended): whenever the exclusion set empties the eligible pool,
`run_switch` logs a warning and returns normally with no configuration
commands issued — it fails closed in effect, but raises no exception (there
is no `NoSafeFaultError` in the code). -/
theorem empty_pool_returns_no_commands (w : SwitchWorld) (host : String)
    (hh : w.host = some host) (hc : w.connectOk = true)
    (hne : w.interfaces ≠ [])
    (hempty : connectedEligible w.interfaces (exclOf w) = []) :
    runSwitch w = .ok ⟨[], .noEligible⟩ := by
  unfold runSwitch
  rw [hh, hempty]
  simp [hc, hne]

/-- Witness: a world whose only connected port is the auto-excluded host
port. -/
theorem empty_pool_returns_no_commands_witness :
    runSwitch
      ⟨some "10.0.0.5", true, some "Gi0/1", [⟨"Gi0/1", "connected"⟩],
        id, fun _ => 0, fun _ => false⟩ =
      .ok ⟨[], .noEligible⟩ :=
  empty_pool_returns_no_commands _ "10.0.0.5" rfl rfl (by decide) (by decide)

/-- C4 counterexample: the empty-pool run returns normally (`Except.ok` with
zero command batches); it is not the `NoSafeFaultError` failure the claim
demands. -/
theorem empty_pool_does_not_raise :
    runSwitch
      ⟨some "10.0.0.5", true, some "Gi0/1", [⟨"Gi0/1", "connected"⟩],
        id, fun _ => 0, fun _ => false⟩ =
      .ok ⟨[], .noEligible⟩ ∧
    (Except.ok (⟨[], .noEligible⟩ : SwitchRun) ≠
      (Except.error PyErr.noSafeFaultError : Except PyErr SwitchRun)) := by
  constructor
  · rfl
  · exact fun h => Except.noConfusion h

/-- C5 (amended): the REST session probes the versioned prefixes in
descending preference order `/api/v2` then `/api/v1` and returns the first
whose probe does not error; a host answering only `/api/v1` detects
`/api/v1`; when every probe errors the function raises a fatal
`RuntimeError` (the claim's `ConnectionError` names the wrong exception
kind — see the counterexample theorem). -/
theorem api_probe_order_and_failure :
    (∀ probeOk : String → Bool, probeOk "/api/v2" = true →
      detectApiBase probeOk = .ok "/api/v2") ∧
    (∀ probeOk : String → Bool, probeOk "/api/v2" = false →
      probeOk "/api/v1" = true → detectApiBase probeOk = .ok "/api/v1") ∧
    (∀ probeOk : String → Bool, probeOk "/api/v2" = false →
      probeOk "/api/v1" = false →
      detectApiBase probeOk = .error .runtimeError) ∧
    detectApiBase (fun p => p == "/api/v1") = .ok "/api/v1" := by
  refine ⟨?_, ?_, ?_, rfl⟩
  · intro probeOk h
    unfold detectApiBase
    simp [List.find?, h]
  · intro probeOk h1 h2
    unfold detectApiBase
    simp [List.find?, h1, h2]
  · intro probeOk h1 h2
    unfold detectApiBase
    simp [List.find?, h1, h2]

/-- Witness for the probe-order theorem: a host that answers only `/api/v1`. -/
theorem api_probe_order_and_failure_witness :
    detectApiBase (fun p => p == "/api/v1") = .ok "/api/v1" :=
  api_probe_order_and_failure.2.1 (fun p => p == "/api/v1") rfl rfl

/-- C5 counterexample: with every probe erroring, `_detect_api_prefix`
raises `RuntimeError`, which is not the `ConnectionError` the claim names. -/
theorem api_probe_all_fail_raises_runtime :
    detectApiBase (fun _ => false) = .error .runtimeError ∧
    PyErr.runtimeError ≠ PyErr.connectionError := by
  exact ⟨rfl, by decide⟩

/-- A pass loop returns the head of the suffix whose prefix it rejected. -/
theorem firstHit_append_first (p : Gateway → Bool) (pre post : List Gateway)
    (g : Gateway) (hpre : ∀ x ∈ pre, p x = false) (hg : p g = true) :
    firstHit p (pre ++ g :: post) = some g := by
  induction pre with
  | nil => simp [firstHit, hg]
  | cons a l ih =>
    have ha := hpre a (by simp)
    simp only [List.cons_append, firstHit, ha]
    exact (if_neg (by simp [ha])).trans (ih fun x hx => hpre x (by simp [hx]))

/-- A pass loop that rejects every entry returns nothing. -/
theorem firstHit_none (p : Gateway → Bool) (l : List Gateway)
    (h : ∀ x ∈ l, p x = false) : firstHit p l = none := by
  induction l with
  | nil => rfl
  | cons a rest ih =>
    have ha := h a (by simp)
    simp only [firstHit]
    exact (if_neg (by simp [ha])).trans (ih fun x hx => h x (by simp [hx]))

/-- C6: the gateway-to-disable is chosen by three passes in strict
precedence over the gateway list: the first entry whose name matches the
canonical `WANGW` (the code compares upper-cased names); only when no name
matches, the first entry carrying an explicit default flag; only when no
default flag is set either, the first non-disabled entry.  An earlier pass's
match is always preferred over any later pass's match. -/
theorem gateway_selection_pass_precedence :
    (∀ (pre post : List Gateway) (g : Gateway),
      (∀ x ∈ pre, gwNameMatch x = false) → gwNameMatch g = true →
      selectDefaultGw (pre ++ g :: post) = some g) ∧
    (∀ (pre post : List Gateway) (g : Gateway),
      (∀ x ∈ pre ++ g :: post, gwNameMatch x = false) →
      (∀ x ∈ pre, gwDefaultFlag x = false) → gwDefaultFlag g = true →
      selectDefaultGw (pre ++ g :: post) = some g) ∧
    (∀ (pre post : List Gateway) (g : Gateway),
      (∀ x ∈ pre ++ g :: post, gwNameMatch x = false) →
      (∀ x ∈ pre ++ g :: post, gwDefaultFlag x = false) →
      (∀ x ∈ pre, gwDisabled x = true) → gwDisabled g = false →
      selectDefaultGw (pre ++ g :: post) = some g) := by
  refine ⟨?_, ?_, ?_⟩
  · intro pre post g hpre hg
    unfold selectDefaultGw findPass1
    rw [firstHit_append_first gwNameMatch pre post g hpre hg]
  · intro pre post g hall hpre hg
    unfold selectDefaultGw findPass1 findPass2
    rw [firstHit_none gwNameMatch _ hall,
      firstHit_append_first gwDefaultFlag pre post g hpre hg]
  · intro pre post g hall1 hall2 hpre hg
    unfold selectDefaultGw findPass1 findPass2 findPass3
    rw [firstHit_none gwNameMatch _ hall1, firstHit_none gwDefaultFlag _ hall2,
      firstHit_append_first _ pre post g (fun x hx => by simp [hpre x hx])
        (by simp [hg])]

/-- Witness for the pass-precedence theorem: a disabled entry named `wangw`
(upper-cases to the canonical name) beats a later entry with an explicit
default flag. -/
theorem gateway_selection_pass_precedence_witness :
    selectDefaultGw
      [⟨some "OPTGW", none, none, none, some (.vbool false)⟩,
       ⟨some "WANGW", none, none, none, some (.vbool true)⟩,
       ⟨some "LANGW", some (.vbool true), none, none, none⟩] =
      some ⟨some "WANGW", none, none, none, some (.vbool true)⟩ :=
  gateway_selection_pass_precedence.1
    [⟨some "OPTGW", none, none, none, some (.vbool false)⟩]
    [⟨some "LANGW", some (.vbool true), none, none, none⟩]
    ⟨some "WANGW", none, none, none, some (.vbool true)⟩
    (by decide) (by decide)

/-- C7 (amended): the firewall/rollback `_env` helper and the router
`env_optional` helper treat a value as absent when it is empty,
whitespace-only, or a case-insensitive `"none"`/`"null"` sentinel (the
router helper also accepts `"nil"`); the switch fault runner, by contrast,
reads its credentials raw — see the counterexample theorem. -/
theorem env_sentinels_absent (s : String) (h : absentPerSpec s = true) :
    envOpt (some s) = none ∧ envOptionalRouter (some s) = none := by
  have h' : pyStrip s = "" ∨ pyLower (pyStrip s) = "none" ∨
      pyLower (pyStrip s) = "null" := by
    unfold absentPerSpec at h
    simpa [Bool.or_eq_true, decide_eq_true_eq, or_assoc] using h
  constructor
  · show (if pyStrip s = "" ∨ pyLower (pyStrip s) = "none" ∨
        pyLower (pyStrip s) = "null" then none else some (pyStrip s)) = none
    exact if_pos h'
  · show (if pyStrip s = "" ∨ pyLower (pyStrip s) = "none" ∨
        pyLower (pyStrip s) = "null" ∨ pyLower (pyStrip s) = "nil"
        then none else some (pyStrip s)) = none
    refine if_pos ?_
    rcases h' with h1 | h1 | h1
    · exact Or.inl h1
    · exact Or.inr (Or.inl h1)
    · exact Or.inr (Or.inr (Or.inl h1))

/-- Witness: the padded sentinel `" None "` is absent for both helpers. -/
theorem env_sentinels_absent_witness :
    envOpt (some " None ") = none ∧ envOptionalRouter (some " None ") = none :=
  env_sentinels_absent " None " (by decide)

/-- C7 counterexample: the switch role does not sentinel-filter its
environment-derived credentials — `SWITCH1_USERNAME="none"` is a value the
spec calls absent, yet `run_switch` treats it as a present username. -/
theorem switch_credentials_skip_sentinel_filter :
    absentPerSpec "none" = true ∧
    switchCred (some "none") = some "none" ∧
    switchCred (some "none") ≠ none := by
  refine ⟨by decide, rfl, fun h => Option.noConfusion h⟩

/-- The wait loop's return clock never exceeds the deadline by more than one
interval. -/
theorem waitLoop_fst_le (probe : Nat → Bool) (interval : Nat) :
    ∀ (fuel now endT : Nat), now ≤ endT + interval →
      (waitLoop probe interval fuel now endT).1 ≤ endT + interval := by
  intro fuel
  induction fuel with
  | zero => intro now endT h; exact h
  | succ f ih =>
    intro now endT h
    show (if now < endT then
        if probe now then (now, true)
        else waitLoop probe interval f (now + interval) endT
      else (now, false)).1 ≤ endT + interval
    by_cases hlt : now < endT
    · rw [if_pos hlt]
      by_cases hp : probe now = true
      · rw [if_pos hp]; exact h
      · rw [if_neg hp]
        exact ih (now + interval) endT (Nat.add_le_add_right (Nat.le_of_lt hlt) interval)
    · rw [if_neg hlt]; exact h

/-- A threshold condition becoming true at `T` is caught at the first poll
at or after `T`, provided that poll happens before the deadline. -/
theorem waitLoop_first_poll (T interval : Nat) :
    ∀ (k fuel now endT : Nat), T ≤ now + k * interval →
      now + k * interval < endT →
      (∀ j, j < k → now + j * interval < T) → k + 1 ≤ fuel →
      waitLoop (fun t => decide (T ≤ t)) interval fuel now endT =
        (now + k * interval, true) := by
  intro k
  induction k with
  | zero =>
    intro fuel now endT hT hlt hmin hfuel
    match fuel, hfuel with
    | f + 1, _ =>
      show (if now < endT then _ else _) = _
      rw [if_pos (by simpa using hlt)]
      simp only [Nat.zero_mul, Nat.add_zero] at hT ⊢
      rw [if_pos (by simpa using hT)]
  | succ k ih =>
    intro fuel now endT hT hlt hmin hfuel
    match fuel, hfuel with
    | f + 1, hfuel =>
      have hnow : now < endT :=
        Nat.lt_of_le_of_lt (Nat.le_add_right now ((k + 1) * interval)) hlt
      show (if now < endT then
          if decide (T ≤ now) = true then (now, true)
          else waitLoop (fun t => decide (T ≤ t)) interval f (now + interval) endT
        else (now, false)) = _
      rw [if_pos hnow]
      have h0 : now < T := by simpa using hmin 0 (Nat.succ_pos k)
      rw [if_neg (by simp [Nat.not_le.mpr h0])]
      have harr : now + interval + k * interval = now + (k + 1) * interval := by ring
      rw [ih f (now + interval) endT (by rw [harr]; exact hT) (by rw [harr]; exact hlt)
        (fun j hj => by
          have := hmin (j + 1) (Nat.succ_lt_succ hj)
          calc now + interval + j * interval = now + (j + 1) * interval := by ring
            _ < T := this)
        (Nat.le_of_succ_le_succ hfuel), harr]

/-- C8 (amended): every TCP reachability wait returns no later than clock
time `start + timeout + interval` (it never blocks past
`timeout + interval`), and a threshold condition becoming true at time `T`
is answered successfully at the first poll at or after `T` *provided that
poll falls before the deadline* (`k·interval < timeout` for the first
qualifying poll index `k`); when the first poll at or after `T` lands past
the deadline the wait fails instead — see the counterexample theorem. -/
theorem wait_deadline_bound_and_first_poll :
    (∀ (probe : Nat → Bool) (start timeout interval : Nat),
      (waitTcpUp probe start timeout interval).1 ≤ start + timeout + interval ∧
      (waitTcpDown probe start timeout interval).1 ≤ start + timeout + interval) ∧
    (∀ (T start timeout interval k : Nat), 1 ≤ interval →
      T ≤ start + k * interval → k * interval < timeout →
      (∀ j, j < k → start + j * interval < T) →
      waitTcpUp (fun t => decide (T ≤ t)) start timeout interval =
        (start + k * interval, true)) := by
  constructor
  · intro probe start timeout interval
    constructor
    · exact waitLoop_fst_le probe interval (timeout + 1) start (start + timeout)
        (by omega)
    · exact waitLoop_fst_le _ interval (timeout + 1) start (start + timeout)
        (by omega)
  · intro T start timeout interval k hi hT hlt hmin
    have hk : k + 1 ≤ timeout + 1 := by
      have h1 : k ≤ k * interval := Nat.le_mul_of_pos_right k (Nat.lt_of_lt_of_le Nat.zero_lt_one hi)
      exact Nat.succ_le_succ (Nat.le_of_lt (Nat.lt_of_le_of_lt h1 hlt))
    exact waitLoop_first_poll T interval k (timeout + 1) start (start + timeout)
      hT (Nat.add_lt_add_left hlt start) hmin hk

/-- Witness for the wait theorem: a condition true from time 5 with a 10s
timeout and 2s interval is answered successfully at the first poll ≥ 5
(clock time 6); the deadline bound holds at the same parameters. -/
theorem wait_deadline_bound_and_first_poll_witness :
    waitTcpUp (fun t => decide (5 ≤ t)) 0 10 2 = (6, true) ∧
    (waitTcpUp (fun t => decide (5 ≤ t)) 0 10 2).1 ≤ 0 + 10 + 2 :=
  ⟨wait_deadline_bound_and_first_poll.2 5 0 10 2 3 (by decide) (by decide)
      (by decide) (by decide),
    (wait_deadline_bound_and_first_poll.1 (fun t => decide (5 ≤ t)) 0 10 2).1⟩

/-- C8 counterexample: a condition that becomes true at `T = 9`, earlier
than the timeout 10, is *not* answered successfully when the interval is 2:
the polls happen at clock times 0, 2, 4, 6, 8 and the wait gives up at
clock time 10 with failure, because the first poll at or after `T` would
fall on the deadline. -/
theorem wait_misses_threshold_before_deadline :
    waitTcpUp (fun t => decide (9 ≤ t)) 0 10 2 = (10, false) ∧ 9 < 10 :=
  ⟨rfl, by decide⟩

/-- Appending to a fixed left string is injective. -/
theorem string_append_left_cancel (a : String) {b c : String}
    (h : a ++ b = a ++ c) : b = c := by
  have h2 := congrArg String.data h
  rw [String.data_append, String.data_append] at h2
  exact String.ext (List.append_cancel_left h2)

/-- An `interface` command never spells the default-route removal. -/
theorem interface_ne_noroute (s : String) :
    "interface " ++ s ≠ "no ip route 0.0.0.0 0.0.0.0" := by
  intro h
  have h2 := congrArg String.data h
  rw [String.data_append] at h2
  have h3 := congrArg List.head? h2
  rw [show ("interface ".data ++ s.data).head? = some 'i' from rfl] at h3
  exact absurd h3 (by decide)

/-- A black-hole route command never spells the default-route removal. -/
theorem blackhole_ne_noroute (n : Ipv4Net) :
    blackholeCmd n ≠ "no ip route 0.0.0.0 0.0.0.0" := by
  intro h
  have h2 := congrArg List.head? (congrArg String.data h)
  rw [show (blackholeCmd n).data.head? = some 'i' from rfl] at h2
  exact absurd h2 (by decide)

/-- A black-hole route command is never an `interface` command. -/
theorem blackhole_ne_interface (n : Ipv4Net) (s : String) :
    blackholeCmd n ≠ "interface " ++ s := by
  intro h
  have h2 := congrArg String.data h
  rw [String.data_append] at h2
  have h3 := congrArg List.head? (congrArg List.tail h2)
  rw [show (blackholeCmd n).data.tail.head? = some 'p' from rfl,
    show ("interface ".data ++ s.data).tail.head? = some 'n' from rfl] at h3
  exact absurd h3 (by decide)

/-- A constant whose first char is not `'i'` is never an `interface`
command. -/
theorem const_ne_interface {c : String} (s : String)
    (hc : c.data.head? = some 's' ∨ c.data.head? = some 'n' ∨
      c.data.head? = some 'd' ∨ c.data.head? = some 'e') :
    c ≠ "interface " ++ s := by
  intro h
  have h2 := congrArg String.data h
  rw [String.data_append] at h2
  have h3 := congrArg List.head? h2
  rw [show ("interface ".data ++ s.data).head? = some 'i' from rfl] at h3
  rcases hc with hc | hc | hc | hc <;> rw [hc] at h3 <;> exact absurd h3 (by decide)

/-- An `ip access-…` constant is never an `interface` command (second
characters differ). -/
theorem ipaccess_ne_interface {c : String} (s : String)
    (hc : c.data.tail.head? = some 'p') : c ≠ "interface " ++ s := by
  intro h
  have h2 := congrArg String.data h
  rw [String.data_append] at h2
  have h3 := congrArg List.head? (congrArg List.tail h2)
  rw [show ("interface ".data ++ s.data).tail.head? = some 'n' from rfl, hc] at h3
  exact absurd h3 (by decide)

/-- Every command in the safe pool stays away from the north-bound interface
and from the default route. -/
theorem safeCmdPool_props (s north : String) (snet : Option Ipv4Net)
    (hns : north ≠ s) (c : String) (hc : c ∈ safeCmdPool s snet) :
    c ≠ "interface " ++ north ∧ c ≠ "no ip route 0.0.0.0 0.0.0.0" := by
  have hint : "interface " ++ s ≠ "interface " ++ north :=
    fun h => hns (string_append_left_cancel _ h).symm
  cases snet with
  | none =>
    simp only [safeCmdPool, List.mem_append, List.mem_cons,
      List.not_mem_nil, or_false] at hc
    rcases hc with h | h | h | h | h | h | h <;> subst h
    · exact ⟨hint, interface_ne_noroute s⟩
    · exact ⟨const_ne_interface north (by simp), by decide⟩
    · exact ⟨const_ne_interface north (by simp), by decide⟩
    · exact ⟨ipaccess_ne_interface north (by simp), by decide⟩
    · exact ⟨const_ne_interface north (by simp), by decide⟩
    · exact ⟨const_ne_interface north (by simp), by decide⟩
    · exact ⟨ipaccess_ne_interface north (by simp), by decide⟩
  | some net =>
    simp only [safeCmdPool, List.mem_append, List.mem_cons,
      List.not_mem_nil, or_false] at hc
    rcases hc with (h | h | h | h | h | h | h) | h <;> subst h
    · exact ⟨hint, interface_ne_noroute s⟩
    · exact ⟨const_ne_interface north (by simp), by decide⟩
    · exact ⟨const_ne_interface north (by simp), by decide⟩
    · exact ⟨ipaccess_ne_interface north (by simp), by decide⟩
    · exact ⟨const_ne_interface north (by simp), by decide⟩
    · exact ⟨const_ne_interface north (by simp), by decide⟩
    · exact ⟨ipaccess_ne_interface north (by simp), by decide⟩
    · exact ⟨blackhole_ne_interface net north, blackhole_ne_noroute net⟩

/-- C9: in the `r2_safe` mode used for SP-Router2, for every classified
north/south interface pair (distinct names) and every optional south subnet,
the fault catalog does not depend on the north-bound interface at all, and
every command of every fault draws from the safe pool — it configures only
the south-bound interface or a `Null0` black-hole route for the south
connected subnet; no command addresses the north-bound interface's
configuration and none removes the default route. -/
theorem r2_safe_faults_touch_only_southbound (north south : String)
    (snet : Option Ipv4Net) (hns : north ≠ south) :
    (∀ north' : String,
      faultsRouter2Safe north south snet = faultsRouter2Safe north' south snet) ∧
    (∀ f ∈ faultsRouter2Safe north south snet, ∀ c ∈ f.2,
      c ∈ safeCmdPool south snet ∧ c ≠ "interface " ++ north ∧
        c ≠ "no ip route 0.0.0.0 0.0.0.0") := by
  have hpool : ∀ f ∈ faultsRouter2Safe north south snet, ∀ c ∈ f.2,
      c ∈ safeCmdPool south snet := by
    intro f hf c hc
    cases snet with
    | none =>
      simp only [faultsRouter2Safe, List.append_nil, List.mem_cons,
        List.not_mem_nil, or_false] at hf
      rcases hf with rfl | rfl | rfl <;>
        simp only [List.mem_cons, List.not_mem_nil, or_false] at hc
      · rcases hc with rfl | rfl <;> simp [safeCmdPool]
      · rcases hc with rfl | rfl <;> simp [safeCmdPool]
      · rcases hc with rfl | rfl | rfl | rfl | rfl <;> simp [safeCmdPool]
    | some net =>
      simp only [faultsRouter2Safe, List.mem_append, List.mem_cons,
        List.not_mem_nil, or_false] at hf
      rcases hf with (rfl | rfl | rfl) | rfl <;>
        simp only [List.mem_cons, List.not_mem_nil, or_false] at hc
      · rcases hc with rfl | rfl <;> simp [safeCmdPool]
      · rcases hc with rfl | rfl <;> simp [safeCmdPool]
      · rcases hc with rfl | rfl | rfl | rfl | rfl <;> simp [safeCmdPool]
      · rcases hc with rfl
        simp [safeCmdPool]
  refine ⟨fun north' => rfl, fun f hf c hc => ?_⟩
  have hp := hpool f hf c hc
  exact ⟨hp, safeCmdPool_props south north snet hns c hp⟩

/-- Witness for the safe-fault theorem at concrete interfaces and subnet. -/
theorem r2_safe_faults_touch_only_southbound_witness :
    ("interface " ++ "Ethernet0/1") ∈ safeCmdPool "Ethernet0/1"
        (some ⟨"10.20.0.0", "255.255.255.0"⟩) ∧
    ("interface " ++ "Ethernet0/1") ≠ "interface " ++ "Ethernet0/0" ∧
    ("interface " ++ "Ethernet0/1") ≠ "no ip route 0.0.0.0 0.0.0.0" :=
  (r2_safe_faults_touch_only_southbound "Ethernet0/0" "Ethernet0/1"
      (some ⟨"10.20.0.0", "255.255.255.0"⟩) (by decide)).2
    ("shutdown_southbound", ["interface " ++ "Ethernet0/1", "shutdown"])
    (by simp [faultsRouter2Safe]) ("interface " ++ "Ethernet0/1") (by simp)

/-- Any VLAN produced by the bounded retry loop is in range and outside the
exclusion set. -/
theorem randVlanTry_some (g : Nat → Nat) (exclude : List Nat) :
    ∀ (t k : Nat) (v k' : Nat), randVlanTry g exclude t k = (some v, k') →
      v ∉ exclude ∧ 2 ≤ v ∧ v ≤ 4094 := by
  intro t
  induction t with
  | zero =>
    intro k v k' h
    have h2 : (none : Option Nat) = some v := by
      simpa [randVlanTry] using congrArg Prod.fst h
    exact absurd h2 (by simp)
  | succ t ih =>
    intro k v k' h
    by_cases hc : randInt g k 2 4094 ∈ exclude
    · exact ih (k + 1) v k' (by simpa [randVlanTry, hc] using h)
    · have hv : randInt g k 2 4094 = v := by
        have := congrArg Prod.fst h
        simpa [randVlanTry, hc] using this
      refine hv ▸ ⟨hc, Nat.le_add_right 2 _, ?_⟩
      show 2 + g k % (4094 - 2 + 1) ≤ 4094
      have := Nat.mod_lt (g k) (show 0 < 4094 - 2 + 1 by decide)
      omega

/-- Any VLAN produced by the fallback scan is in its range and outside the
exclusion set. -/
theorem scanVlan_some (exclude : List Nat) :
    ∀ (len start v : Nat), scanVlan exclude start len = some v →
      v ∉ exclude ∧ start ≤ v ∧ v < start + len := by
  intro len
  induction len with
  | zero => intro start v h; exact absurd h (by simp [scanVlan])
  | succ n ih =>
    intro start v h
    by_cases hc : start ∈ exclude
    · have h2 : scanVlan exclude (start + 1) n = some v := by
        simpa [scanVlan, hc] using h
      obtain ⟨h3, h4, h5⟩ := ih (start + 1) v h2
      exact ⟨h3, by omega, by omega⟩
    · have hv : start = v := by simpa [scanVlan, hc] using h
      subst hv
      exact ⟨hc, Nat.le_refl _, by omega⟩

/-- `_rand_vlan` only returns VLAN ids in `[2, 4094]` outside the exclusion
set. -/
theorem randVlan_ok (g : Nat → Nat) (k : Nat) (exclude : List Nat)
    (v k' : Nat) (h : randVlan g k exclude = .ok (v, k')) :
    v ∉ exclude ∧ 2 ≤ v ∧ v ≤ 4094 := by
  unfold randVlan at h
  rcases htry : randVlanTry g exclude 50 k with ⟨ov, kt⟩
  rw [htry] at h
  cases ov with
  | some v0 =>
    have h2 : v0 = v ∧ kt = k' := by simpa using h
    exact h2.1 ▸ randVlanTry_some g exclude 50 k v0 kt htry
  | none =>
    rcases hscan : scanVlan exclude 2 4093 with _ | v0
    · rw [hscan] at h; exact absurd h (by simp)
    · rw [hscan] at h
      have hv : v0 = v ∧ kt = k' := by simpa using h
      obtain ⟨h1, h2, h3⟩ := scanVlan_some exclude 4093 2 v0 hscan
      exact hv.1 ▸ ⟨h1, h2, by omega⟩

/-- Every element the `_rand_vlan_list` loop accumulates beyond its starting
set is in range and outside the exclusion set. -/
theorem randVlanListGo_ok (g : Nat → Nat) (exclude : List Nat) :
    ∀ (n k : Nat) (acc l : List Nat) (k' : Nat),
      randVlanListGo g exclude n k acc = .ok (l, k') →
      ∀ v ∈ l, v ∈ acc ∨ (v ∉ exclude ∧ 2 ≤ v ∧ v ≤ 4094) := by
  intro n
  induction n with
  | zero =>
    intro k acc l k' h v hv
    have h2 : acc = l ∧ k = k' := by simpa [randVlanListGo] using h
    exact Or.inl (h2.1 ▸ hv)
  | succ n ih =>
    intro k acc l k' h v hv
    rcases hr : randVlan g k (exclude ++ acc) with e | ⟨v0, k0⟩
    · rw [randVlanListGo, hr] at h; exact absurd h (by simp)
    · rw [randVlanListGo, hr] at h
      obtain ⟨hne, hlo, hhi⟩ := randVlan_ok g k (exclude ++ acc) v0 k0 hr
      have hmem := ih k0 (acc ++ [v0]) l k' h v hv
      rcases hmem with hmem | hmem
      · rcases List.mem_append.mp hmem with hmem | hmem
        · exact Or.inl hmem
        · have : v = v0 := by simpa using hmem
          subst this
          exact Or.inr ⟨fun hx => hne (List.mem_append.mpr (Or.inl hx)), hlo, hhi⟩
      · exact Or.inr hmem

/-- Membership is preserved by ascending insertion. -/
theorem mem_insertAsc (v x : Nat) :
    ∀ l : List Nat, v ∈ insertAsc x l ↔ v = x ∨ v ∈ l := by
  intro l
  induction l with
  | nil => simp [insertAsc]
  | cons a rest ih =>
    by_cases hle : x ≤ a
    · simp [insertAsc, hle]
    · simp only [insertAsc, if_neg hle, List.mem_cons, ih]
      tauto

/-- Membership is preserved by the sort modelling Python `sorted`. -/
theorem mem_sortAsc (v : Nat) : ∀ l : List Nat, v ∈ sortAsc l ↔ v ∈ l := by
  intro l
  induction l with
  | nil => simp [sortAsc]
  | cons a rest ih =>
    show v ∈ insertAsc a (sortAsc rest) ↔ _
    rw [mem_insertAsc, ih]
    simp

/-- `_rand_vlan_list` only returns VLAN ids in `[2, 4094]` outside the
exclusion set. -/
theorem randVlanList_ok (g : Nat → Nat) (k count : Nat) (exclude : List Nat)
    (l : List Nat) (k' : Nat) (h : randVlanList g k count exclude = .ok (l, k')) :
    ∀ v ∈ l, v ∉ exclude ∧ 2 ≤ v ∧ v ≤ 4094 := by
  intro v hv
  unfold randVlanList at h
  rcases hgo : randVlanListGo g exclude count k [] with e | ⟨acc, kg⟩
  · rw [hgo] at h; exact absurd h (by simp)
  · rw [hgo] at h
    have hl : sortAsc acc = l ∧ kg = k' := by simpa using h
    have hv' : v ∈ acc := (mem_sortAsc v acc).mp (hl.1 ▸ hv)
    rcases randVlanListGo_ok g exclude count k [] acc kg hgo v hv' with h0 | h0
    · exact absurd h0 (by simp)
    · exact h0

/-- C10: every VLAN id the switch fault plan configures — the access VLAN of
an access port, every allowed VLAN of a trunk, and a trunk's native VLAN —
lies in `[2, 4094]` and is never the management VLAN 1; and a trunk's native
VLAN is never a member of that same trunk's allowed list. -/
theorem switch_vlan_plan_invariants (g : Nat → Nat) (coin : Nat → Bool) :
    ∀ (targets : List SwIface) (k c : Nat) (plan : List PlanEntry)
      (k' c' : Nat), buildPlan g coin targets k c = .ok (plan, k', c') →
      ∀ e ∈ plan,
        (∀ v, e.accessVlan = some v → 2 ≤ v ∧ v ≤ 4094 ∧ v ≠ 1) ∧
        (∀ l, e.allowed = some l → ∀ v ∈ l, 2 ≤ v ∧ v ≤ 4094 ∧ v ≠ 1) ∧
        (∀ v, e.native = some v →
          (2 ≤ v ∧ v ≤ 4094 ∧ v ≠ 1) ∧ ∀ l, e.allowed = some l → v ∉ l) := by
  intro targets
  induction targets with
  | nil =>
    intro k c plan k' c' h e he
    have h2 : ([] : List PlanEntry) = plan ∧ k = k' ∧ c = c' := by
      simpa [buildPlan] using h
    rw [← h2.1] at he
    exact absurd he (by simp)
  | cons iface rest ih =>
    intro k c plan k' c' h e he
    simp only [buildPlan] at h
    by_cases hcoin : coin c = true
    · rw [if_pos hcoin] at h
      rcases h1 : randVlanList g (k + 1) (randInt g k 3 12) [1] with e1 | ⟨allowed, k1⟩
      · simp only [h1] at h
        exact Except.noConfusion h
      · simp only [h1] at h
        rcases h2 : randVlan g k1 ([1] ++ allowed) with e2 | ⟨native, k2⟩
        · simp only [h2] at h
          exact Except.noConfusion h
        · simp only [h2] at h
          rcases h3 : buildPlan g coin rest k2 (c + 1) with e3 | ⟨plan2, kc⟩
          · simp only [h3] at h
            exact Except.noConfusion h
          · simp only [h3] at h
            simp only [Except.ok.injEq, Prod.mk.injEq] at h
            rw [← h.1] at he
            rcases List.mem_cons.mp he with he1 | he1
            · subst he1
              refine ⟨fun v hv => by simp at hv, ?_, ?_⟩
              · intro l hl v hv
                have hl2 : allowed = l := by simpa using hl
                obtain ⟨hni, hlo, hhi⟩ :=
                  randVlanList_ok g (k + 1) (randInt g k 3 12) [1] allowed k1 h1
                    v (hl2 ▸ hv)
                exact ⟨hlo, hhi, by simpa using hni⟩
              · intro v hv
                have hv2 : native = v := by simpa using hv
                subst hv2
                obtain ⟨hni, hlo, hhi⟩ :=
                  randVlan_ok g k1 ([1] ++ allowed) native k2 h2
                refine ⟨⟨hlo, hhi, ?_⟩, ?_⟩
                · exact fun hone => hni (List.mem_append.mpr (Or.inl (by simp [hone])))
                · intro l hl
                  have hl2 : allowed = l := by simpa using hl
                  exact fun hx =>
                    hni (List.mem_append.mpr (Or.inr (hl2 ▸ hx)))
            · exact ih k2 (c + 1) plan2 k' c' (by rw [h3, h.2]) e he1
    · rw [if_neg hcoin] at h
      rcases h1 : randVlan g k [1] with e1 | ⟨v0, k1⟩
      · simp only [h1] at h
        exact Except.noConfusion h
      · simp only [h1] at h
        rcases h3 : buildPlan g coin rest k1 (c + 1) with e3 | ⟨plan2, kc⟩
        · simp only [h3] at h
          exact Except.noConfusion h
        · simp only [h3] at h
          simp only [Except.ok.injEq, Prod.mk.injEq] at h
          rw [← h.1] at he
          rcases List.mem_cons.mp he with he1 | he1
          · subst he1
            refine ⟨?_, fun l hl => by simp at hl, fun v hv => by simp at hv⟩
            intro v hv
            have hv2 : v0 = v := by simpa using hv
            subst hv2
            obtain ⟨hni, hlo, hhi⟩ := randVlan_ok g k [1] v0 k1 h1
            exact ⟨hlo, hhi, by simpa using hni⟩
          · exact ih k1 (c + 1) plan2 k' c' (by rw [h3, h.2]) e he1

/-- Witness for the VLAN-plan theorem at a concrete draw stream: the access
entry planned for Gi0/2 carries VLAN 2, which is in range and
non-management. -/
theorem switch_vlan_plan_invariants_witness :
    2 ≤ 2 ∧ 2 ≤ 4094 ∧ 2 ≠ 1 :=
  (switch_vlan_plan_invariants (fun _ => 0) (fun _ => false)
      [⟨"Gi0/2", "connected"⟩] 0 0
      [⟨"Gi0/2", "access", some 2, none, none⟩] 1 1 rfl
      ⟨"Gi0/2", "access", some 2, none, none⟩ (by simp)).1 2 rfl

end Uproot
